import Mathlib

/-!
Verification development for a session-based authentication backend
(Next.js route handlers over MongoDB).  The definitions below are a shallow
embedding of the four route handlers and the validation helpers:

- `register`, `login`       — app/api/register/route.ts (two handlers)
- `logoutAll`               — app/api/logout/route.ts (DELETE handler)
- `getProfile`, `updateProfile`, `deleteAccount`, `getUserFromSession`
                            — the profile route (lib part_001)
- `registerPasswordAccepts`, `libPasswordAccepts`
                            — zod password rules (register route / lib/validation.ts)

Machine times (JS `Date`) are modelled as `Nat` milliseconds.  The bcrypt
primitive is opaque in the source, so handlers take an explicit
`hash : String → String` and verification is `hash candidate == storedDigest`.
MongoDB collections are Lean lists; `findOne` is `List.find?` (first match),
`updateOne` maps over the matching `_id`, `deleteMany` filters.
-/

namespace BffAuth

/-- User preference bag (`preferences` subdocument created at registration). -/
structure Preferences where
  notifications : Bool
  theme : String
  deriving DecidableEq

/-- A document of the `users` collection, with the fields the handlers read
and write.  `loginAttempts`/`lockUntil` are `Option` because a successful
login `$unset`s them (absent field), matching the Mongo documents. -/
structure User where
  id : Nat
  email : String
  password : String
  name : Option String
  emailVerified : Bool
  createdAt : Nat
  updatedAt : Nat
  lastLogin : Option Nat
  loginAttempts : Option Nat
  lockUntil : Option Nat
  preferences : Preferences
  deriving DecidableEq

/-- A document of the `sessions` collection, as inserted by the login
handler. -/
structure Session where
  token : String
  userId : Nat
  createdAt : Nat
  expiresAt : Nat
  userAgent : String
  ip : String
  rememberMe : Bool
  deriving DecidableEq

/-- The persistent store: the two collections the handlers touch. -/
structure DB where
  users : List User
  sessions : List Session
  deriving DecidableEq

/-- The `code` field of the JSON responses, one constructor per string
literal appearing in the handlers. -/
inductive Code
  | RATE_LIMIT_EXCEEDED | INVALID_JSON | VALIDATION_ERROR
  | USER_EXISTS | REGISTRATION_SUCCESS
  | INVALID_CREDENTIALS | ACCOUNT_LOCKED | LOGIN_SUCCESS
  | INTERNAL_ERROR | NOT_AUTHENTICATED | INVALID_SESSION
  | PROFILE_RETRIEVED | CURRENT_PASSWORD_REQUIRED | USER_NOT_FOUND
  | INVALID_CURRENT_PASSWORD | PROFILE_UPDATED
  | PASSWORD_REQUIRED | INVALID_PASSWORD | ACCOUNT_DELETED
  | LOGOUT_SUCCESS | NO_SESSION | LOGOUT_ALL_SUCCESS
  deriving DecidableEq

/-- The observable parts of a handler response: HTTP status, `code`,
`message`, and the optional JSON fields the claims mention. -/
structure Response where
  status : Nat
  code : Code
  message : String
  attemptsRemaining : Option Nat
  lockUntil : Option Nat
  sessionsDeleted : Option Nat
  deriving DecidableEq

/-- Response with only status, code and message set. -/
def mkResp (st : Nat) (c : Code) (m : String) : Response :=
  { status := st, code := c, message := m,
    attemptsRemaining := none, lockUntil := none, sessionsDeleted := none }

/-! ## Password validation (registerSchema and lib/validation.ts) -/

/-- JS `/[a-z]/` on one character. -/
def isLowerChar (c : Char) : Bool := 'a' ≤ c && c ≤ 'z'

/-- JS `/[A-Z]/` on one character. -/
def isUpperChar (c : Char) : Bool := 'A' ≤ c && c ≤ 'Z'

/-- JS `/\d/` on one character. -/
def isDigitChar (c : Char) : Bool := '0' ≤ c && c ≤ '9'

/-- JS `/[@$!%*?&]/` on one character. -/
def isSpecialChar (c : Char) : Bool :=
  c == '@' || c == '$' || c == '!' || c == '%' || c == '*' || c == '?' || c == '&'

/-- The character class `[A-Za-z\d@$!%*?&]` of registerSchema's regex. -/
def allowedChar (c : Char) : Bool :=
  isLowerChar c || isUpperChar c || isDigitChar c || isSpecialChar c

/-- A JS regex line terminator (which `.` never matches). -/
def isLineTerminator (c : Char) : Bool :=
  c == '\n' || c == '\r' || c == Char.ofNat 0x2028 || c == Char.ofNat 0x2029

/-- The longest prefix `.*` can span: characters before the first line
terminator. -/
def dotSeg (l : List Char) : List Char := l.takeWhile (fun c => !(isLineTerminator c))

/-- Semantics of registerSchema's regex
`^(?=.*[a-z])(?=.*[A-Z])(?=.*\d)(?=.*[@$!%*?&])[A-Za-z\d@$!%*?&]` under
JS `RegExp.test`: the four lookaheads each need their character inside the
`.*`-reachable prefix, and the unanchored tail class only constrains the
first character. -/
def registerRegexTest (l : List Char) : Bool :=
  (dotSeg l).any isLowerChar && (dotSeg l).any isUpperChar &&
  (dotSeg l).any isDigitChar && (dotSeg l).any isSpecialChar &&
  (match l with
   | [] => false
   | c :: _ => allowedChar c)

/-- The password rule of the register route's `registerSchema` (zod
`min(8)`, `max(128)`, `regex(...)`). -/
def registerPasswordAccepts (p : String) : Bool :=
  decide (8 ≤ p.length) && decide (p.length ≤ 128) && registerRegexTest p.data

/-- `leadMatch needle hay`: `needle` is a leading segment of `hay`
(helper for JS `String.includes`). -/
def leadMatch : List Char → List Char → Bool
  | [], _ => true
  | _ :: _, [] => false
  | n :: ns, h :: hs => n == h && leadMatch ns hs

/-- `hasSubstr needle hay`: JS `hay.includes(needle)`. -/
def hasSubstr (needle : List Char) : List Char → Bool
  | [] => leadMatch needle []
  | c :: hs => leadMatch needle (c :: hs) || hasSubstr needle hs

/-- JS `toLowerCase` (ASCII-faithful). -/
def toLowerList (l : List Char) : List Char := l.map Char.toLower

/-- The denylist of lib/validation.ts's `passwordSchema`. -/
def commonPasswords : List String :=
  ["password", "12345678", "qwerty123", "admin123", "letmein", "welcome123"]

/-- The password rule of lib/validation.ts's `passwordSchema` (zod `min`,
`max`, and the five `refine` steps: lowercase, uppercase, digit, special
character, denylist substring check on the lowercased candidate). -/
def libPasswordAccepts (p : String) : Bool :=
  decide (8 ≤ p.length) && decide (p.length ≤ 128) &&
  p.data.any isLowerChar && p.data.any isUpperChar &&
  p.data.any isDigitChar && p.data.any isSpecialChar &&
  !(commonPasswords.any (fun w => hasSubstr w.data (toLowerList p.data)))

/-- Modelled from the spec: the claimed acceptance rule — length in
[8,128]; contains a lowercase letter, an uppercase letter, a digit, and a
character of `@$!%*?&`; and no denylist entry occurs case-insensitively as
a substring.  Stated from the claim's words for comparison with the source
definitions above. -/
def specPasswordAccepted (p : String) : Prop :=
  8 ≤ p.length ∧ p.length ≤ 128 ∧
  (∃ c ∈ p.data, isLowerChar c = true) ∧
  (∃ c ∈ p.data, isUpperChar c = true) ∧
  (∃ c ∈ p.data, isDigitChar c = true) ∧
  (∃ c ∈ p.data, isSpecialChar c = true) ∧
  (∀ w ∈ commonPasswords, hasSubstr w.data (toLowerList p.data) = false)

instance (p : String) : Decidable (specPasswordAccepted p) := by
  unfold specPasswordAccepted; infer_instance

/-! ## Login handler (register/route.ts, second document) -/

/-- `MAX_LOGIN_ATTEMPTS` of the login handler. -/
def MAX_LOGIN_ATTEMPTS : Nat := 5

/-- `LOCKOUT_DURATION` of the login handler: 30 minutes in milliseconds. -/
def LOCKOUT_DURATION : Nat := 30 * 60 * 1000

/-- Session TTL chosen at login: 30 days with rememberMe, else 24 hours. -/
def sessionTtl (rememberMe : Bool) : Nat :=
  if rememberMe then 30 * 24 * 60 * 60 * 1000 else 24 * 60 * 60 * 1000

/-- The effective failed-attempt counter, exactly as the handler reads it:
`user.loginAttempts || 0`. -/
def failedAttempts (u : User) : Nat := u.loginAttempts.getD 0

/-- Whether the lockout branch fires: `user.lockUntil && user.lockUntil > now`. -/
def lockActive (u : User) (now : Nat) : Bool :=
  match u.lockUntil with
  | some lu => decide (now < lu)
  | none => false

/-- The `updateOne` issued on a failed verification: `$set`s
`loginAttempts` to the value computed from the previously-read document
and, when that value reaches the maximum, also `$set`s
`lockUntil = now + LOCKOUT_DURATION` in the same update. -/
def writeFailed (db : DB) (uid : Nat) (attempts : Nat) (now : Nat) : DB :=
  { db with users := db.users.map (fun v =>
      if v.id == uid then
        { v with loginAttempts := some attempts,
                 lockUntil := if MAX_LOGIN_ATTEMPTS ≤ attempts
                              then some (now + LOCKOUT_DURATION)
                              else v.lockUntil,
                 updatedAt := now }
      else v) }

/-- The 401 response of the failed-verification branch: code is always
`INVALID_CREDENTIALS`; only the message switches when the counter reached
the maximum; `attemptsRemaining = max(0, 5 - attempts)`. -/
def failedLoginResponse (attempts : Nat) : Response :=
  { status := 401, code := Code.INVALID_CREDENTIALS,
    message := if MAX_LOGIN_ATTEMPTS ≤ attempts
               then "Too many failed attempts. Account has been locked."
               else "Invalid email or password",
    attemptsRemaining := some (MAX_LOGIN_ATTEMPTS - attempts),
    lockUntil := none, sessionsDeleted := none }

/-- The user update of a successful login: `$set lastLogin/updatedAt`,
`$unset loginAttempts/lockUntil`. -/
def recordSuccessUser (u : User) (now : Nat) : User :=
  { u with lastLogin := some now, updatedAt := now,
           loginAttempts := none, lockUntil := none }

/-- Verification stage of the login handler (runs only when the lockout
branch did not fire): compare the digest, then either record success and
insert a fresh session, or record the failed attempt. -/
def loginVerify (hash : String → String) (db : DB) (u : User) (password : String)
    (rememberMe : Bool) (now : Nat) (freshToken ua ipAddr : String) : DB × Response :=
  if hash password == u.password then
    ({ users := db.users.map (fun v => if v.id == u.id then recordSuccessUser v now else v),
       sessions := db.sessions ++
         [{ token := freshToken, userId := u.id, createdAt := now,
            expiresAt := now + sessionTtl rememberMe, userAgent := ua,
            ip := ipAddr, rememberMe := rememberMe }] },
     mkResp 200 Code.LOGIN_SUCCESS "Login successful")
  else
    let attempts := u.loginAttempts.getD 0 + 1
    (writeFailed db u.id attempts now, failedLoginResponse attempts)

/-- The login handler after rate limiting and body validation: find the
user by email, refuse while locked (remaining time in whole minutes,
rounded up), otherwise verify the password. -/
def login (hash : String → String) (db : DB) (email password : String)
    (rememberMe : Bool) (now : Nat) (freshToken ua ipAddr : String) : DB × Response :=
  match db.users.find? (fun v => v.email == email) with
  | none => (db, mkResp 401 Code.INVALID_CREDENTIALS "Invalid email or password")
  | some u =>
    match u.lockUntil with
    | some lu =>
      if now < lu then
        (db, { status := 423, code := Code.ACCOUNT_LOCKED,
               message := "Account is locked. Try again in " ++
                 toString ((lu - now + 59999) / 60000) ++ " minutes.",
               attemptsRemaining := none, lockUntil := some lu,
               sessionsDeleted := none })
      else loginVerify hash db u password rememberMe now freshToken ua ipAddr
    | none => loginVerify hash db u password rememberMe now freshToken ua ipAddr

/-! ## Register handler (register/route.ts, first document) -/

/-- Deployment environment; only the 409 message text depends on it. -/
inductive Env
  | development | production
  deriving DecidableEq

/-- The user document inserted by registration. -/
def newUserRecord (id : Nat) (email digest : String) (now : Nat) : User :=
  { id := id, email := email, password := digest, name := none,
    emailVerified := false, createdAt := now, updatedAt := now,
    lastLogin := none, loginAttempts := some 0, lockUntil := none,
    preferences := { notifications := true, theme := "light" } }

/-- The register handler after rate limiting and body validation: check
for an existing user by email (409 `USER_EXISTS`, with the message gated
on the environment), else hash and insert (201). -/
def register (env : Env) (hash : String → String) (db : DB)
    (email password : String) (newId now : Nat) : DB × Response :=
  match db.users.find? (fun v => v.email == email) with
  | some _ =>
    (db, mkResp 409 Code.USER_EXISTS
      (if env == Env.development
       then "An account with this email already exists"
       else "If an account with this email exists, you will receive a confirmation email"))
  | none =>
    ({ db with users := db.users ++ [newUserRecord newId email (hash password) now] },
     mkResp 201 Code.REGISTRATION_SUCCESS
       "Registration successful! Please check your email for verification.")

/-! ## Session resolution and the profile handlers (part_001) -/

/-- The session lookup of `getUserFromSession`:
`findOne({token, expiresAt: {$gt: new Date()}})` — exact token match AND
not yet expired. -/
def findValidSession (sessions : List Session) (tok : String) (now : Nat) : Option Session :=
  sessions.find? (fun s => s.token == tok && decide (now < s.expiresAt))

/-- `getUserFromSession`: resolve the token to a (possibly absent) user
record plus the session; `none` when no unexpired session with that token
exists.  The user lookup is by the session's `userId` and may itself come
back empty (the source performs no null check on it). -/
def getUserFromSession (db : DB) (tok : String) (now : Nat) :
    Option (Option User × Session) :=
  match findValidSession db.sessions tok now with
  | none => none
  | some s => some (db.users.find? (fun v => v.id == s.userId), s)

/-- GET profile: resolve the session, then return the public view.  A
resolved session whose user record is missing makes the handler throw on
`user._id`, surfacing as the catch-all 500. -/
def getProfile (db : DB) (tok? : Option String) (now : Nat) : Response :=
  match tok? with
  | none => mkResp 401 Code.NOT_AUTHENTICATED "Authentication required"
  | some tok =>
    match getUserFromSession db tok now with
    | none => mkResp 401 Code.INVALID_SESSION "Invalid or expired session"
    | some (none, _) => mkResp 500 Code.INTERNAL_ERROR "Internal server error"
    | some (some _, _) => mkResp 200 Code.PROFILE_RETRIEVED "Profile retrieved"

/-- Optional subfields of the `preferences` patch. -/
structure PrefPatch where
  notifications : Option Bool
  theme : Option String
  deriving DecidableEq

/-- The `$set` document built by the PATCH handler: `updatedAt`, optional
name, shallow-merged preferences, and (when changing the password) the new
digest.  `loginAttempts` and `lockUntil` are never part of it. -/
def applyProfilePatch (v : User) (now : Nat) (name? : Option String)
    (prefs? : Option PrefPatch) (newDigest? : Option String) : User :=
  { v with
    updatedAt := now,
    name := match name? with
      | some n => some n
      | none => v.name,
    preferences := match prefs? with
      | some pp => { notifications := pp.notifications.getD v.preferences.notifications,
                     theme := pp.theme.getD v.preferences.theme }
      | none => v.preferences,
    password := match newDigest? with
      | some d => d
      | none => v.password }

/-- PATCH profile after body validation.  When a `newPassword` is present
the handler requires and verifies `currentPassword` against a re-fetched
user document, then `deleteMany`s every session of that user except the
initiating token, before applying the `$set`.  (The handler's
`matchedCount == 0` 404 arm cannot fire here: the sequential model keeps
the user found a moment earlier present.) -/
def updateProfile (hash : String → String) (db : DB) (tok? : Option String)
    (now : Nat) (name? currentPassword? newPassword? : Option String)
    (prefs? : Option PrefPatch) : DB × Response :=
  match tok? with
  | none => (db, mkResp 401 Code.NOT_AUTHENTICATED "Authentication required")
  | some tok =>
    match getUserFromSession db tok now with
    | none => (db, mkResp 401 Code.INVALID_SESSION "Invalid or expired session")
    | some (none, _) => (db, mkResp 500 Code.INTERNAL_ERROR "Internal server error")
    | some (some u, _) =>
      match newPassword? with
      | some np =>
        match currentPassword? with
        | none => (db, mkResp 400 Code.CURRENT_PASSWORD_REQUIRED
            "Current password is required to change password")
        | some cp =>
          match db.users.find? (fun v => v.id == u.id) with
          | none => (db, mkResp 404 Code.USER_NOT_FOUND "User not found")
          | some uw =>
            if hash cp == uw.password then
              ({ users := db.users.map (fun v =>
                    if v.id == u.id then applyProfilePatch v now name? prefs? (some (hash np)) else v),
                 sessions := db.sessions.filter (fun s =>
                    !(s.userId == u.id && !(s.token == tok))) },
               mkResp 200 Code.PROFILE_UPDATED "Profile updated successfully")
            else (db, mkResp 400 Code.INVALID_CURRENT_PASSWORD "Current password is incorrect")
      | none =>
        ({ users := db.users.map (fun v =>
              if v.id == u.id then applyProfilePatch v now name? prefs? none else v),
           sessions := db.sessions },
         mkResp 200 Code.PROFILE_UPDATED "Profile updated successfully")

/-- DELETE account after body parsing.  Verifies the confirmation password
against a re-fetched user document, then runs the two `deleteMany`/
`deleteOne` calls inside `session.withTransaction`.  The store's
transaction contract (both deletions commit together or the transaction
aborts with no visible write) is modelled by `txOk`: on commit both
removals land as one state change; on abort the state is untouched and the
catch-all returns 500. -/
def deleteAccount (hash : String → String) (db : DB) (tok? : Option String)
    (now : Nat) (confirmPassword? : Option String) (txOk : Bool) : DB × Response :=
  match tok? with
  | none => (db, mkResp 401 Code.NOT_AUTHENTICATED "Authentication required")
  | some tok =>
    match getUserFromSession db tok now with
    | none => (db, mkResp 401 Code.INVALID_SESSION "Invalid or expired session")
    | some (none, _) => (db, mkResp 500 Code.INTERNAL_ERROR "Internal server error")
    | some (some u, _) =>
      match confirmPassword? with
      | none => (db, mkResp 400 Code.PASSWORD_REQUIRED
          "Password confirmation is required to delete account")
      | some cp =>
        match db.users.find? (fun v => v.id == u.id) with
        | none => (db, mkResp 404 Code.USER_NOT_FOUND "User not found")
        | some uw =>
          if hash cp == uw.password then
            if txOk then
              ({ users := db.users.filter (fun v => !(v.id == u.id)),
                 sessions := db.sessions.filter (fun s => !(s.userId == u.id)) },
               mkResp 200 Code.ACCOUNT_DELETED "Account deleted successfully")
            else (db, mkResp 500 Code.INTERNAL_ERROR "Internal server error")
          else (db, mkResp 400 Code.INVALID_PASSWORD "Password is incorrect")

/-! ## Logout-all handler (logout/route.ts, DELETE) -/

/-- DELETE logout (logout everywhere): looks the current session up by
exact token match only — `findOne({token: sessionToken})`, with no
`expiresAt` filter — then `deleteMany`s every session of that user. -/
def logoutAll (db : DB) (tok? : Option String) : DB × Response :=
  match tok? with
  | none => (db, mkResp 400 Code.NO_SESSION "No active session found")
  | some tok =>
    match db.sessions.find? (fun s => s.token == tok) with
    | none => (db, mkResp 401 Code.INVALID_SESSION "Invalid session")
    | some cur =>
      let deleted := (db.sessions.filter (fun s => s.userId == cur.userId)).length
      ({ db with sessions := db.sessions.filter (fun s => !(s.userId == cur.userId)) },
       { status := 200, code := Code.LOGOUT_ALL_SUCCESS,
         message := "Logout successful from all devices (" ++ toString deleted ++ " sessions)",
         attemptsRemaining := none, lockUntil := none,
         sessionsDeleted := some deleted })

/-! ## Interleaved execution of two failed logins (C9) -/

/-- Two failed login requests for the same account run under the schedule
read₁, read₂, write₁, write₂: each request executes the handler's
`findOne` before either has issued its `updateOne`, so both compute
`loginAttempts` from the same snapshot.  Each request performs exactly the
handler's steps on its snapshot (lockout check, verification, counter
computation, `$set`); `none` when the snapshot does not take the
failed-verification branch. -/
def staleWriteRun (hash : String → String) (db : DB) (email password : String)
    (t1 t2 : Nat) : Option (DB × Response × Response) :=
  match db.users.find? (fun v => v.email == email) with
  | none => none
  | some u =>
    if lockActive u t1 || lockActive u t2 then none
    else if hash password == u.password then none
    else
      let a1 := u.loginAttempts.getD 0 + 1
      let a2 := u.loginAttempts.getD 0 + 1
      some (writeFailed (writeFailed db u.id a1 t1) u.id a2 t2,
            failedLoginResponse a1, failedLoginResponse a2)

/-! ## Iterated failed logins (C1) -/

/-- Run one login request per listed time, with a fixed wrong password;
the fold keeps only the evolving store (token/agent/ip arguments are
irrelevant on the failure path). -/
def runFailedLogins (hash : String → String) (db : DB) (email password : String)
    (ts : List Nat) : DB :=
  ts.foldl (fun d t => (login hash d email password false t "tok" "ua" "ip").1) db

/-! ## Lemmas about the login handler -/

/-- One failed login against a single-user store with no lock set: the
store records counter + 1 and, exactly when that reaches the maximum, the
lock expiry 30 minutes after this attempt's time. -/
lemma login_fail_step (hash : String → String) (u : User) (ss : List Session)
    (pw : String) (t : Nat) (rm : Bool) (tok ua ipAddr : String)
    (hlock : u.lockUntil = none) (hwrong : hash pw ≠ u.password) :
    login hash ⟨[u], ss⟩ u.email pw rm t tok ua ipAddr =
      (⟨[{ u with loginAttempts := some (u.loginAttempts.getD 0 + 1),
                  lockUntil := if MAX_LOGIN_ATTEMPTS ≤ u.loginAttempts.getD 0 + 1
                               then some (t + LOCKOUT_DURATION) else none,
                  updatedAt := t }], ss⟩,
       failedLoginResponse (u.loginAttempts.getD 0 + 1)) := by
  have hfind : List.find? (fun v => v.email == u.email) [u] = some u :=
    List.find?_cons_of_pos _ (by simp)
  have hbeq : (hash pw == u.password) = false := beq_eq_false_iff_ne.mpr hwrong
  unfold login
  simp only [show (⟨[u], ss⟩ : DB).users = [u] from rfl, hfind, hlock]
  unfold loginVerify writeFailed
  simp only [hbeq, Bool.false_eq_true, if_false, hlock]
  simp [List.map, hlock]

/-- Iterating failed logins below the lockout threshold: the counter adds
the number of attempts and no lock appears. -/
lemma runFails_below (hash : String → String) (pw : String) (ts : List Nat) :
    ∀ (u : User) (ss : List Session), u.lockUntil = none → hash pw ≠ u.password →
      u.loginAttempts.getD 0 + ts.length ≤ 4 →
      ∃ u2, runFailedLogins hash ⟨[u], ss⟩ u.email pw ts = ⟨[u2], ss⟩ ∧
        u2.email = u.email ∧ u2.password = u.password ∧
        u2.loginAttempts.getD 0 = u.loginAttempts.getD 0 + ts.length ∧
        u2.lockUntil = none := by
  induction ts with
  | nil =>
    intro u ss h1 _ _
    exact ⟨u, rfl, rfl, rfl, by simp, h1⟩
  | cons t ts ih =>
    intro u ss h1 h2 h3
    simp only [List.length_cons] at h3
    have hnotmax : ¬ MAX_LOGIN_ATTEMPTS ≤ u.loginAttempts.getD 0 + 1 := by
      unfold MAX_LOGIN_ATTEMPTS; omega
    have hstep := login_fail_step hash u ss pw t false "tok" "ua" "ip" h1 h2
    rw [if_neg hnotmax] at hstep
    have hrun1 : runFailedLogins hash ⟨[u], ss⟩ u.email pw (t :: ts)
        = runFailedLogins hash
            ⟨[{ u with loginAttempts := some (u.loginAttempts.getD 0 + 1),
                       lockUntil := none, updatedAt := t }], ss⟩ u.email pw ts := by
      unfold runFailedLogins
      rw [List.foldl_cons, hstep]
    obtain ⟨u2, hrun, he, hp, hc, hl⟩ :=
      ih { u with loginAttempts := some (u.loginAttempts.getD 0 + 1),
                  lockUntil := none, updatedAt := t } ss rfl h2
        (by show u.loginAttempts.getD 0 + 1 + ts.length ≤ 4; omega)
    refine ⟨u2, ?_, he, hp, ?_, hl⟩
    · rw [hrun1]; exact hrun
    · have hc2 : u2.loginAttempts.getD 0 = u.loginAttempts.getD 0 + 1 + ts.length := hc
      simp only [List.length_cons]
      omega

/-- C1. For every account starting with counter 0 and no lock, a run of N
consecutive failed login attempts (wrong password) with N less than 5 ends
with the stored counter equal to N and `lockUntil` still absent, and the
attempt that brings the counter to 5 sets, in the same update,
`lockUntil` to exactly 30 minutes (LOCKOUT_DURATION) after that attempt's
current time. -/
theorem c1_lockout_progression (hash : String → String) (u : User) (ss : List Session)
    (pw : String) (ts : List Nat) (t : Nat)
    (h0 : u.loginAttempts.getD 0 = 0) (hlock : u.lockUntil = none)
    (hwrong : hash pw ≠ u.password) :
    (ts.length ≤ 4 →
      ∃ u2, runFailedLogins hash ⟨[u], ss⟩ u.email pw ts = ⟨[u2], ss⟩ ∧
        failedAttempts u2 = ts.length ∧ u2.lockUntil = none) ∧
    (ts.length = 4 →
      ∃ u2, runFailedLogins hash ⟨[u], ss⟩ u.email pw (ts ++ [t]) = ⟨[u2], ss⟩ ∧
        failedAttempts u2 = MAX_LOGIN_ATTEMPTS ∧
        u2.lockUntil = some (t + LOCKOUT_DURATION)) := by
  constructor
  · intro hlen
    obtain ⟨u2, hrun, _, _, hc, hl⟩ :=
      runFails_below hash pw ts u ss hlock hwrong (by omega)
    exact ⟨u2, hrun, by unfold failedAttempts; omega, hl⟩
  · intro hlen
    obtain ⟨u2, hrun, he, hp, hc, hl⟩ :=
      runFails_below hash pw ts u ss hlock hwrong (by omega)
    have hwrong2 : hash pw ≠ u2.password := by rw [hp]; exact hwrong
    have hstep := login_fail_step hash u2 ss pw t false "tok" "ua" "ip" hl hwrong2
    have hmax : MAX_LOGIN_ATTEMPTS ≤ u2.loginAttempts.getD 0 + 1 := by
      unfold MAX_LOGIN_ATTEMPTS; omega
    rw [if_pos hmax] at hstep
    refine ⟨{ u2 with loginAttempts := some (u2.loginAttempts.getD 0 + 1),
                      lockUntil := some (t + LOCKOUT_DURATION), updatedAt := t }, ?_, ?_, rfl⟩
    · unfold runFailedLogins
      rw [List.foldl_append]
      have hinner : List.foldl
          (fun d t2 => (login hash d u.email pw false t2 "tok" "ua" "ip").1)
          ⟨[u], ss⟩ ts = ⟨[u2], ss⟩ := hrun
      rw [hinner, List.foldl_cons, ← he, hstep]
      rfl
    · show u2.loginAttempts.getD 0 + 1 = MAX_LOGIN_ATTEMPTS
      unfold MAX_LOGIN_ATTEMPTS
      omega

/-- Concrete account used by the witnesses. -/
def userA : User :=
  { id := 1, email := "a@b.c", password := "Secret1!", name := none,
    emailVerified := false, createdAt := 0, updatedAt := 0, lastLogin := none,
    loginAttempts := some 0, lockUntil := none,
    preferences := { notifications := true, theme := "light" } }

/-- Witness for C1: five concrete failed attempts lock the concrete
account at the fifth attempt's time plus 30 minutes. -/
theorem c1_lockout_progression_witness :
    ∃ u2, runFailedLogins (fun s => s) ⟨[userA], []⟩ userA.email "wrong" [1, 2, 3, 4, 9]
        = ⟨[u2], []⟩ ∧
      failedAttempts u2 = MAX_LOGIN_ATTEMPTS ∧
      u2.lockUntil = some (9 + LOCKOUT_DURATION) := by
  have h := (c1_lockout_progression (fun s => s) userA [] "wrong" [1, 2, 3, 4] 9
    rfl rfl (by decide)).2 rfl
  simpa using h

/-- C2. Whenever the looked-up user's `lockUntil` is set and strictly in
the future, login returns 423 `ACCOUNT_LOCKED` with the remaining lockout
time (in minutes, rounded up) and the stored `lockUntil`, leaves the store
completely unchanged (in particular the counter is not incremented), and
does so for every candidate password — the password is never consulted, so
the correct password is rejected the same way. -/
theorem c2_locked_rejects_all (hash : String → String) (db : DB) (email : String)
    (now : Nat) (u : User) (lu : Nat)
    (hfind : db.users.find? (fun v => v.email == email) = some u)
    (hlu : u.lockUntil = some lu) (hfut : now < lu) :
    ∀ pw rememberMe tok ua ipAddr,
      login hash db email pw rememberMe now tok ua ipAddr =
        (db, { status := 423, code := Code.ACCOUNT_LOCKED,
               message := "Account is locked. Try again in " ++
                 toString ((lu - now + 59999) / 60000) ++ " minutes.",
               attemptsRemaining := none, lockUntil := some lu,
               sessionsDeleted := none }) := by
  intro pw rememberMe tok ua ipAddr
  unfold login
  simp only [hfind, hlu, if_pos hfut]

/-- Concrete locked account used by the C2 witness. -/
def userL : User := { userA with loginAttempts := some 5, lockUntil := some 100000 }

/-- Witness for C2: a login with the account's correct password during
the lockout window is still answered with `ACCOUNT_LOCKED` and the store
is untouched. -/
theorem c2_locked_rejects_all_witness :
    login (fun s => s) ⟨[userL], []⟩ userL.email "Secret1!" false 40000 "t" "ua" "ip"
      = (⟨[userL], []⟩,
         { status := 423, code := Code.ACCOUNT_LOCKED,
           message := "Account is locked. Try again in " ++
             toString ((100000 - 40000 + 59999) / 60000) ++ " minutes.",
           attemptsRemaining := none, lockUntil := some 100000,
           sessionsDeleted := none }) :=
  c2_locked_rejects_all (fun s => s) ⟨[userL], []⟩ userL.email 40000 userL 100000
    (by decide) rfl (by omega) "Secret1!" false "t" "ua" "ip"

/-! ## C3: counter resets and counter monotonicity lemmas -/

/-- A successful login against a single-user store clears both lockout
fields (the `$unset` update), whatever their prior values. -/
lemma login_success_reset (hash : String → String) (u : User) (ss : List Session)
    (pw : String) (rememberMe : Bool) (now : Nat) (tok ua ipAddr : String)
    (hnl : lockActive u now = false) (hok : hash pw = u.password) :
    (login hash ⟨[u], ss⟩ u.email pw rememberMe now tok ua ipAddr).1.users
      = [recordSuccessUser u now] := by
  have hfind : List.find? (fun v => v.email == u.email) [u] = some u :=
    List.find?_cons_of_pos _ (by simp)
  have hbeq : (hash pw == u.password) = true := beq_iff_eq.mpr hok
  unfold login
  rcases hl : u.lockUntil with _ | lu
  · simp only [show (⟨[u], ss⟩ : DB).users = [u] from rfl, hfind, hl]
    unfold loginVerify
    simp [hbeq]
  · have hnow : ¬ now < lu := by
      unfold lockActive at hnl
      rw [hl] at hnl
      simpa using hnl
    simp only [show (⟨[u], ss⟩ : DB).users = [u] from rfl, hfind, hl, if_neg hnow]
    unfold loginVerify
    simp [hbeq]

/-- The only way a login changes the stored counter: a failed verification
adds exactly one, a successful verification resets it to 0 and clears the
lock; every other path leaves it alone. -/
lemma login_counter_change (hash : String → String) (u : User) (ss : List Session)
    (email pw : String) (rememberMe : Bool) (now : Nat) (tok ua ipAddr : String) :
    ∃ u2, (login hash ⟨[u], ss⟩ email pw rememberMe now tok ua ipAddr).1.users = [u2] ∧
      (failedAttempts u2 ≠ failedAttempts u →
        (hash pw ≠ u.password ∧ failedAttempts u2 = failedAttempts u + 1) ∨
        (hash pw = u.password ∧ failedAttempts u2 = 0 ∧ u2.lockUntil = none)) := by
  by_cases hemail : (u.email == email) = true
  · have hfind : List.find? (fun v => v.email == email) [u] = some u :=
      List.find?_cons_of_pos _ hemail
    by_cases hbeq : (hash pw == u.password) = true
    · -- correct password: either locked (no change) or success reset
      rcases hl : u.lockUntil with _ | lu
      · refine ⟨recordSuccessUser u now, ?_, ?_⟩
        · unfold login
          simp only [show (⟨[u], ss⟩ : DB).users = [u] from rfl, hfind, hl]
          unfold loginVerify
          simp [hbeq]
        · intro _
          exact Or.inr ⟨beq_iff_eq.mp hbeq, rfl, rfl⟩
      · by_cases hfut : now < lu
        · refine ⟨u, ?_, fun h => absurd rfl h⟩
          unfold login
          simp only [show (⟨[u], ss⟩ : DB).users = [u] from rfl, hfind, hl, if_pos hfut]
        · refine ⟨recordSuccessUser u now, ?_, ?_⟩
          · unfold login
            simp only [show (⟨[u], ss⟩ : DB).users = [u] from rfl, hfind, hl, if_neg hfut]
            unfold loginVerify
            simp [hbeq]
          · intro _
            exact Or.inr ⟨beq_iff_eq.mp hbeq, rfl, rfl⟩
    · -- wrong password: either locked (no change) or counter + 1
      have hbeq2 : (hash pw == u.password) = false := by simpa using hbeq
      have hne : hash pw ≠ u.password := beq_eq_false_iff_ne.mp hbeq2
      rcases hl : u.lockUntil with _ | lu
      · refine ⟨{ u with loginAttempts := some (u.loginAttempts.getD 0 + 1),
                         lockUntil := if MAX_LOGIN_ATTEMPTS ≤ u.loginAttempts.getD 0 + 1
                                      then some (now + LOCKOUT_DURATION) else u.lockUntil,
                         updatedAt := now }, ?_, ?_⟩
        · unfold login
          simp only [show (⟨[u], ss⟩ : DB).users = [u] from rfl, hfind, hl]
          unfold loginVerify writeFailed
          simp [hbeq2, hl]
        · intro _
          exact Or.inl ⟨hne, rfl⟩
      · by_cases hfut : now < lu
        · refine ⟨u, ?_, fun h => absurd rfl h⟩
          unfold login
          simp only [show (⟨[u], ss⟩ : DB).users = [u] from rfl, hfind, hl, if_pos hfut]
        · refine ⟨{ u with loginAttempts := some (u.loginAttempts.getD 0 + 1),
                           lockUntil := if MAX_LOGIN_ATTEMPTS ≤ u.loginAttempts.getD 0 + 1
                                        then some (now + LOCKOUT_DURATION) else u.lockUntil,
                           updatedAt := now }, ?_, ?_⟩
          · unfold login
            simp only [show (⟨[u], ss⟩ : DB).users = [u] from rfl, hfind, hl, if_neg hfut]
            unfold loginVerify writeFailed
            simp [hbeq2, hl]
          · intro _
            exact Or.inl ⟨hne, rfl⟩
  · have hemail2 : (u.email == email) = false := by simpa using hemail
    have hfind : List.find? (fun v => v.email == email) [u] = none := by
      simp [List.find?, hemail2]
    refine ⟨u, ?_, fun h => absurd rfl h⟩
    unfold login
    simp only [show (⟨[u], ss⟩ : DB).users = [u] from rfl, hfind]

/-- PATCH profile never touches `loginAttempts` or `lockUntil` of any
surviving user. -/
lemma updateProfile_preserves (hash : String → String) (db : DB) (tok? : Option String)
    (now : Nat) (name? cp? np? : Option String) (prefs? : Option PrefPatch) :
    ∀ v2 ∈ (updateProfile hash db tok? now name? cp? np? prefs?).1.users,
      ∃ v ∈ db.users, v2.loginAttempts = v.loginAttempts ∧ v2.lockUntil = v.lockUntil := by
  intro v2 hv2
  unfold updateProfile at hv2
  repeat' split at hv2
  all_goals
    first
      | exact ⟨v2, hv2, rfl, rfl⟩
      | (rcases List.mem_map.mp hv2 with ⟨v, hv, rfl⟩
         exact ⟨v, hv, by split <;> rfl, by split <;> rfl⟩)

/-- Logout-all never touches the users collection. -/
lemma logoutAll_users (db : DB) (tok? : Option String) :
    (logoutAll db tok?).1.users = db.users := by
  unfold logoutAll
  split
  · rfl
  · split <;> rfl

/-- Account deletion only removes user records; the surviving ones are
the untouched originals. -/
lemma deleteAccount_users_subset (hash : String → String) (db : DB)
    (tok? : Option String) (now : Nat) (cp? : Option String) (txOk : Bool) :
    ∀ v2 ∈ (deleteAccount hash db tok? now cp? txOk).1.users, v2 ∈ db.users := by
  intro v2 hv2
  unfold deleteAccount at hv2
  repeat' split at hv2
  all_goals
    first
      | exact hv2
      | exact List.mem_of_mem_filter hv2

/-- C3. A successful login (password verifies, account not locked) always
resets the effective failed-attempt counter to 0 and clears `lockUntil`,
whatever their prior values; a login changes the counter only by a failed
verification (+1) or a successful one (reset to 0 with the lock cleared);
and none of profile update, logout-all or account deletion ever alters a
surviving user's `loginAttempts` or `lockUntil`. -/
theorem c3_counter_reset_and_monotonicity :
    (∀ (hash : String → String) (u : User) (ss : List Session) (pw : String)
       (rememberMe : Bool) (now : Nat) (tok ua ipAddr : String),
       lockActive u now = false → hash pw = u.password →
       (login hash ⟨[u], ss⟩ u.email pw rememberMe now tok ua ipAddr).1.users
           = [recordSuccessUser u now] ∧
         failedAttempts (recordSuccessUser u now) = 0 ∧
         (recordSuccessUser u now).lockUntil = none) ∧
    (∀ (hash : String → String) (u : User) (ss : List Session) (email pw : String)
       (rememberMe : Bool) (now : Nat) (tok ua ipAddr : String),
       ∃ u2, (login hash ⟨[u], ss⟩ email pw rememberMe now tok ua ipAddr).1.users = [u2] ∧
         (failedAttempts u2 ≠ failedAttempts u →
           (hash pw ≠ u.password ∧ failedAttempts u2 = failedAttempts u + 1) ∨
           (hash pw = u.password ∧ failedAttempts u2 = 0 ∧ u2.lockUntil = none))) ∧
    (∀ (hash : String → String) (db : DB) (tok? : Option String) (now : Nat)
       (name? cp? np? : Option String) (prefs? : Option PrefPatch),
       ∀ v2 ∈ (updateProfile hash db tok? now name? cp? np? prefs?).1.users,
         ∃ v ∈ db.users, v2.loginAttempts = v.loginAttempts ∧ v2.lockUntil = v.lockUntil) ∧
    (∀ (db : DB) (tok? : Option String), (logoutAll db tok?).1.users = db.users) ∧
    (∀ (hash : String → String) (db : DB) (tok? : Option String) (now : Nat)
       (cp? : Option String) (txOk : Bool),
       ∀ v2 ∈ (deleteAccount hash db tok? now cp? txOk).1.users, v2 ∈ db.users) :=
  ⟨fun hash u ss pw rememberMe now tok ua ipAddr h1 h2 =>
     ⟨login_success_reset hash u ss pw rememberMe now tok ua ipAddr h1 h2, rfl, rfl⟩,
   login_counter_change, updateProfile_preserves, logoutAll_users,
   deleteAccount_users_subset⟩

/-- Witness for C3: a concrete successful login on an account with a
nonzero counter resets both fields, and a concrete logout-all leaves the
user record alone. -/
theorem c3_counter_reset_and_monotonicity_witness :
    ((login (fun s => s) ⟨[userA], []⟩ userA.email "Secret1!" false 50 "t" "ua" "ip").1.users
        = [recordSuccessUser userA 50] ∧
      failedAttempts (recordSuccessUser userA 50) = 0 ∧
      (recordSuccessUser userA 50).lockUntil = none) ∧
    (logoutAll ⟨[userA], []⟩ (some "z")).1.users = [userA] :=
  ⟨c3_counter_reset_and_monotonicity.1 (fun s => s) userA [] "Secret1!" false 50 "t" "ua" "ip"
     rfl rfl,
   c3_counter_reset_and_monotonicity.2.2.2.1 ⟨[userA], []⟩ (some "z")⟩

/-! ## C4: session validity across the token-resolving operations -/

/-- Concrete store with a single, already expired session (expiry 100). -/
def dbExpired : DB :=
  { users := [userA],
    sessions := [{ token := "t", userId := 1, createdAt := 0, expiresAt := 100,
                   userAgent := "ua", ip := "ip", rememberMe := false }] }

/-- C4 counterexample. At time 200 the session "t" is expired: the profile
operations treat the token as absent, yet logout-all — one of the
operations the claim quantifies over — still resolves it by bare token
match and proceeds to success instead of rejecting the session, so the
claimed "valid exactly when it exists and now is before expiresAt" fails
for logout-all. -/
theorem c4_session_validity_counterexample :
    getUserFromSession dbExpired "t" 200 = none ∧
    (logoutAll dbExpired (some "t")).2.code = Code.LOGOUT_ALL_SUCCESS ∧
    (logoutAll dbExpired (some "t")).2.code ≠ Code.INVALID_SESSION := by
  refine ⟨?_, ?_, ?_⟩ <;> decide

/-- C4 amended. The profile operations (get/update/delete all resolve the
token through `getUserFromSession`) treat a token as valid exactly when a
session with that token exists and the current time is strictly before its
`expiresAt`; logout-all instead resolves the token by exact match alone,
succeeding exactly when a session with that token exists, expired or
not. -/
theorem c4_session_validity_amended (db : DB) (tok : String) (now : Nat) :
    ((getUserFromSession db tok now).isSome ↔
      ∃ s ∈ db.sessions, s.token = tok ∧ now < s.expiresAt) ∧
    ((logoutAll db (some tok)).2.code = Code.LOGOUT_ALL_SUCCESS ↔
      ∃ s ∈ db.sessions, s.token = tok) := by
  constructor
  · have h1 : (getUserFromSession db tok now).isSome
        = (findValidSession db.sessions tok now).isSome := by
      unfold getUserFromSession
      cases h : findValidSession db.sessions tok now <;> simp [h]
    rw [show ((getUserFromSession db tok now).isSome
          ↔ ∃ s ∈ db.sessions, s.token = tok ∧ now < s.expiresAt)
        = ((findValidSession db.sessions tok now).isSome
          ↔ ∃ s ∈ db.sessions, s.token = tok ∧ now < s.expiresAt) from by rw [h1]]
    unfold findValidSession
    rw [List.find?_isSome]
    simp only [Bool.and_eq_true, beq_iff_eq, decide_eq_true_eq]
  · unfold logoutAll
    cases h : db.sessions.find? (fun s => s.token == tok) with
    | none =>
      simp only [h]
      constructor
      · intro hcode
        simp [mkResp] at hcode
      · rintro ⟨s, hs, hts⟩
        have h2 := List.find?_eq_none.mp h s hs
        simp [hts] at h2
    | some cur =>
      simp only [h]
      constructor
      · intro _
        have hp := List.find?_some h
        exact ⟨cur, List.mem_of_find?_eq_some h, by simpa using hp⟩
      · intro _
        trivial

/-! ## C5: password change revokes every sibling session -/

/-- C5. With a valid session `tokA` resolving to user `u` and the correct
current password, an `UpdateProfile` carrying a new password keeps `tokA`
validating and makes every other token of that user stop validating: the
handler deletes every session of the user except the initiating token. -/
theorem c5_password_change_revokes_siblings (hash : String → String) (db : DB)
    (tokA : String) (now : Nat) (name? : Option String) (cp np : String)
    (prefs? : Option PrefPatch) (u : User) (sA : Session)
    (hres : getUserFromSession db tokA now = some (some u, sA))
    (hcp : hash cp = u.password) :
    (findValidSession
        (updateProfile hash db (some tokA) now name? (some cp) (some np) prefs?).1.sessions
        tokA now).isSome = true ∧
    ∀ tokB, tokB ≠ tokA →
      (∀ s ∈ db.sessions, s.token = tokB → s.userId = u.id) →
      findValidSession
        (updateProfile hash db (some tokA) now name? (some cp) (some np) prefs?).1.sessions
        tokB now = none := by
  unfold getUserFromSession at hres
  rcases hm : findValidSession db.sessions tokA now with _ | s
  · rw [hm] at hres; simp at hres
  rw [hm] at hres
  simp only [Option.some.injEq, Prod.mk.injEq] at hres
  obtain ⟨hfind, rfl⟩ := hres
  have huid : u.id = s.userId := by
    have := List.find?_some hfind
    simpa using this
  have hfind2 : db.users.find? (fun v => v.id == u.id) = some u := by
    rw [huid]; exact hfind
  have hbeq : (hash cp == u.password) = true := beq_iff_eq.mpr hcp
  have hsmem : s ∈ db.sessions := List.mem_of_find?_eq_some hm
  have hs := List.find?_some hm
  simp only [Bool.and_eq_true, beq_iff_eq, decide_eq_true_eq] at hs
  obtain ⟨hstok, hsexp⟩ := hs
  have hup : (updateProfile hash db (some tokA) now name? (some cp) (some np) prefs?).1.sessions
      = db.sessions.filter (fun s2 => !(s2.userId == u.id && !(s2.token == tokA))) := by
    unfold updateProfile getUserFromSession
    simp only [hm, hfind, hfind2, hbeq, if_true]
  constructor
  · rw [hup]
    unfold findValidSession
    rw [List.find?_isSome]
    refine ⟨s, List.mem_filter.mpr ⟨hsmem, ?_⟩, ?_⟩
    · simp [hstok]
    · simp [hstok, hsexp]
  · intro tokB hBA howner
    rw [hup]
    unfold findValidSession
    rw [List.find?_eq_none]
    intro x hx hpx
    obtain ⟨hxmem, hxpred⟩ := List.mem_filter.mp hx
    simp only [Bool.and_eq_true, beq_iff_eq, decide_eq_true_eq] at hpx
    obtain ⟨hxtok, _⟩ := hpx
    have hxuid : x.userId = u.id := howner x hxmem hxtok
    simp [hxuid, hxtok] at hxpred
    exact hBA hxpred

/-- Two concrete sessions of the same user, used by the C5/C6 witnesses. -/
def sessA : Session :=
  { token := "a", userId := 1, createdAt := 0, expiresAt := 1000,
    userAgent := "ua", ip := "ip", rememberMe := false }

/-- Second concrete session of the same user. -/
def sessB : Session := { sessA with token := "b" }

/-- Concrete store with one user and two of their sessions. -/
def dbTwoSessions : DB := { users := [userA], sessions := [sessA, sessB] }

/-- Witness for C5: after a concrete password change through session "a",
token "a" still validates and token "b" no longer does. -/
theorem c5_password_change_revokes_siblings_witness :
    (findValidSession
        (updateProfile (fun s => s) dbTwoSessions (some "a") 10 none
          (some "Secret1!") (some "NewPass1!") none).1.sessions "a" 10).isSome = true ∧
    findValidSession
        (updateProfile (fun s => s) dbTwoSessions (some "a") 10 none
          (some "Secret1!") (some "NewPass1!") none).1.sessions "b" 10 = none := by
  have h := c5_password_change_revokes_siblings (fun s => s) dbTwoSessions "a" 10 none
    "Secret1!" "NewPass1!" none userA sessA (by decide) rfl
  exact ⟨h.1, h.2 "b" (by decide) (by decide)⟩

/-! ## C6: atomicity of account deletion -/

/-- C6. Account deletion removes the user record and all of that user's
sessions as one unit: on commit the response is `ACCOUNT_DELETED`, no
remaining session belongs to the user (so none of their tokens can ever
validate again) and lookup by the user's email finds nothing; on a
transaction abort the store is exactly the original one and the caller
gets the catch-all 500 — no partial removal is ever visible. -/
theorem c6_delete_account_atomic (hash : String → String) (db : DB) (tok : String)
    (now : Nat) (cp : String) (u : User) (sA : Session)
    (hres : getUserFromSession db tok now = some (some u, sA))
    (hcp : hash cp = u.password)
    (huniq : ∀ v ∈ db.users, v.email = u.email → v.id = u.id) :
    ((deleteAccount hash db (some tok) now (some cp) true).2.code = Code.ACCOUNT_DELETED ∧
     (∀ s ∈ (deleteAccount hash db (some tok) now (some cp) true).1.sessions,
        s.userId ≠ u.id) ∧
     (∀ t2 n2 s2, findValidSession
          (deleteAccount hash db (some tok) now (some cp) true).1.sessions t2 n2
            = some s2 → s2.userId ≠ u.id) ∧
     (deleteAccount hash db (some tok) now (some cp) true).1.users.find?
        (fun v => v.email == u.email) = none) ∧
    ((deleteAccount hash db (some tok) now (some cp) false).1 = db ∧
     (deleteAccount hash db (some tok) now (some cp) false).2.code = Code.INTERNAL_ERROR) := by
  unfold getUserFromSession at hres
  rcases hm : findValidSession db.sessions tok now with _ | s
  · rw [hm] at hres; simp at hres
  rw [hm] at hres
  simp only [Option.some.injEq, Prod.mk.injEq] at hres
  obtain ⟨hfind, rfl⟩ := hres
  have huid : u.id = s.userId := by
    have := List.find?_some hfind
    simpa using this
  have hfind2 : db.users.find? (fun v => v.id == u.id) = some u := by
    rw [huid]; exact hfind
  have hbeq : (hash cp == u.password) = true := beq_iff_eq.mpr hcp
  have hT : deleteAccount hash db (some tok) now (some cp) true
      = ({ users := db.users.filter (fun v => !(v.id == u.id)),
           sessions := db.sessions.filter (fun s2 => !(s2.userId == u.id)) },
         mkResp 200 Code.ACCOUNT_DELETED "Account deleted successfully") := by
    unfold deleteAccount getUserFromSession
    simp only [hm, hfind, hfind2, hbeq, if_true]
  have hF : deleteAccount hash db (some tok) now (some cp) false
      = (db, mkResp 500 Code.INTERNAL_ERROR "Internal server error") := by
    unfold deleteAccount getUserFromSession
    simp only [hm, hfind, hfind2, hbeq, if_true, if_false, Bool.false_eq_true]
  have hsess : ∀ s2 ∈ (deleteAccount hash db (some tok) now (some cp) true).1.sessions,
      s2.userId ≠ u.id := by
    rw [hT]
    intro s2 hs2
    obtain ⟨_, hpred⟩ := List.mem_filter.mp hs2
    simpa using hpred
  refine ⟨⟨by rw [hT]; rfl, hsess, ?_, ?_⟩, by rw [hF], by rw [hF]; rfl⟩

  · intro t2 n2 s2 hfound
    exact hsess s2 (List.mem_of_find?_eq_some hfound)
  · rw [hT]
    rw [List.find?_eq_none]
    intro v hv hpv
    obtain ⟨hvmem, hvpred⟩ := List.mem_filter.mp hv
    have hvid : v.id = u.id := huniq v hvmem (beq_iff_eq.mp hpv)
    simp [hvid] at hvpred

/-- Witness for C6: a concrete commit deletes the user and both sessions;
a concrete abort leaves the store untouched. -/
theorem c6_delete_account_atomic_witness :
    (deleteAccount (fun s => s) dbTwoSessions (some "a") 10 (some "Secret1!") true).2.code
        = Code.ACCOUNT_DELETED ∧
    (deleteAccount (fun s => s) dbTwoSessions (some "a") 10 (some "Secret1!") true).1.users.find?
        (fun v => v.email == userA.email) = none ∧
    (deleteAccount (fun s => s) dbTwoSessions (some "a") 10 (some "Secret1!") false).1
        = dbTwoSessions := by
  have h := c6_delete_account_atomic (fun s => s) dbTwoSessions "a" 10 "Secret1!"
    userA sessA (by decide) rfl (by decide)
  exact ⟨h.1.1, h.1.2.2.2, h.2.1⟩

/-! ## C7: the password rule actually applied at registration -/

/-- C7 counterexample. Registration validates passwords through
`registerSchema`, not through lib/validation.ts: `"Password1!"` contains
the denylist entry "password" case-insensitively, so the claimed rule
rejects it, yet registration accepts it; conversely `" bcAd1!xy"`
satisfies every claimed condition but registration rejects it because the
regex also constrains the first character. -/
theorem c7_password_rule_counterexample :
    (registerPasswordAccepts "Password1!" = true ∧
      ¬ specPasswordAccepted "Password1!") ∧
    (registerPasswordAccepts " bcAd1!xy" = false ∧
      specPasswordAccepted " bcAd1!xy") := by
  refine ⟨⟨?_, ?_⟩, ?_, ?_⟩ <;> decide

/-- C7 amended. The claimed iff (length window, character classes,
case-insensitive denylist) characterises lib/validation.ts's
`passwordSchema`; registration's own `registerSchema` instead accepts
exactly the passwords of length 8..128 whose pre-newline prefix contains a
lowercase letter, an uppercase letter, a digit and one of `@$!%*?&`, and
whose first character lies in `[A-Za-z0-9@$!%*?&]` — with no denylist
check at all. -/
theorem c7_password_rule_amended (p : String) :
    (libPasswordAccepts p = true ↔ specPasswordAccepted p) ∧
    (registerPasswordAccepts p = true ↔
      8 ≤ p.length ∧ p.length ≤ 128 ∧
      (∃ c ∈ dotSeg p.data, isLowerChar c = true) ∧
      (∃ c ∈ dotSeg p.data, isUpperChar c = true) ∧
      (∃ c ∈ dotSeg p.data, isDigitChar c = true) ∧
      (∃ c ∈ dotSeg p.data, isSpecialChar c = true) ∧
      (∃ c0, p.data.head? = some c0 ∧ allowedChar c0 = true)) := by
  constructor
  · unfold libPasswordAccepts specPasswordAccepted
    simp only [Bool.and_eq_true, decide_eq_true_eq, List.any_eq_true,
      Bool.not_eq_true', List.any_eq_false, Bool.not_eq_true, and_assoc]
  · unfold registerPasswordAccepts registerRegexTest
    simp only [Bool.and_eq_true, decide_eq_true_eq, List.any_eq_true, and_assoc]
    cases hd : p.data with
    | nil => simp
    | cons c0 rest => simp

/-! ## C8: shape of the failed-verification response -/

/-- Concrete account one failure below the threshold. -/
def userFour : User := { userA with loginAttempts := some 4 }

/-- Its single-user store. -/
def dbFour : DB := { users := [userFour], sessions := [] }

/-- C8 counterexample. The failed attempt that crosses the lockout
threshold is still answered with outcome `INVALID_CREDENTIALS` and HTTP
401 — not with the `ACCOUNT_LOCKED` outcome (423) the claim requires for
that case. -/
theorem c8_failed_attempt_counterexample :
    (login (fun s => s) dbFour userFour.email "wrong" false 1000 "t" "ua" "ip").2.code
        = Code.INVALID_CREDENTIALS ∧
    (login (fun s => s) dbFour userFour.email "wrong" false 1000 "t" "ua" "ip").2.code
        ≠ Code.ACCOUNT_LOCKED ∧
    (login (fun s => s) dbFour userFour.email "wrong" false 1000 "t" "ua" "ip").2.status
        = 401 := by
  refine ⟨?_, ?_, ?_⟩ <;> decide

/-- C8 amended. Every failed password verification is answered with
status 401, code `INVALID_CREDENTIALS` and
`attemptsRemaining = max(0, 5 - newCount)`; when this failure is the one
that crossed the threshold only the human-readable message switches to the
account-locked text — the outcome code does not become `ACCOUNT_LOCKED`
(that outcome is produced only by later attempts inside the lock
window). -/
theorem c8_failed_attempt_amended (hash : String → String) (db : DB) (email pw : String)
    (rememberMe : Bool) (now : Nat) (tok ua ipAddr : String) (u : User)
    (hfind : db.users.find? (fun v => v.email == email) = some u)
    (hnl : lockActive u now = false)
    (hwrong : hash pw ≠ u.password) :
    (login hash db email pw rememberMe now tok ua ipAddr).2 =
      { status := 401, code := Code.INVALID_CREDENTIALS,
        message := if MAX_LOGIN_ATTEMPTS ≤ failedAttempts u + 1
                   then "Too many failed attempts. Account has been locked."
                   else "Invalid email or password",
        attemptsRemaining := some (MAX_LOGIN_ATTEMPTS - (failedAttempts u + 1)),
        lockUntil := none, sessionsDeleted := none } := by
  have hbeq : (hash pw == u.password) = false := beq_eq_false_iff_ne.mpr hwrong
  unfold login
  rcases hl : u.lockUntil with _ | lu
  · simp only [hfind, hl]
    unfold loginVerify
    simp [hbeq, failedLoginResponse, failedAttempts]
  · have hnow : ¬ now < lu := by
      unfold lockActive at hnl
      rw [hl] at hnl
      simpa using hnl
    simp only [hfind, hl, if_neg hnow]
    unfold loginVerify
    simp [hbeq, failedLoginResponse, failedAttempts]

/-- Witness for amended C8: the concrete crossing failure yields 401,
`INVALID_CREDENTIALS`, the locked message and zero attempts remaining. -/
theorem c8_failed_attempt_amended_witness :
    (login (fun s => s) dbFour userFour.email "wrong" false 1000 "t" "ua" "ip").2 =
      { status := 401, code := Code.INVALID_CREDENTIALS,
        message := "Too many failed attempts. Account has been locked.",
        attemptsRemaining := some 0, lockUntil := none, sessionsDeleted := none } :=
  (c8_failed_attempt_amended (fun s => s) dbFour userFour.email "wrong" false 1000
    "t" "ua" "ip" userFour (by decide) rfl (by decide)).trans (by decide)

/-! ## C9: the failed-attempt counter under concurrency -/

/-- C9 (code bug). Under the interleaving read-read-write-write permitted
by the handler (it computes the new counter from a previously `findOne`d
document and writes it back with `$set`, not `$inc`), two failed attempts
against an account sitting at 4 leave the final counter at 5 — one
increment lost, where the claim, and section 5 of the spec, require 6 —
and BOTH requests produce the "now locked" crossing response, where the
claim requires exactly one to observe the transition. -/
theorem c9_lost_update_bug :
    staleWriteRun (fun s => s) dbFour userFour.email "wrong" 1000 2000
      = some (⟨[{ userFour with loginAttempts := some 5,
                                lockUntil := some (2000 + LOCKOUT_DURATION),
                                updatedAt := 2000 }], []⟩,
              failedLoginResponse 5, failedLoginResponse 5) ∧
    failedAttempts { userFour with loginAttempts := some 5,
                                   lockUntil := some (2000 + LOCKOUT_DURATION),
                                   updatedAt := 2000 } = 5 ∧
    (failedLoginResponse 5).message
      = "Too many failed attempts. Account has been locked." := by
  refine ⟨?_, ?_, ?_⟩ <;> decide

/-! ## C10: user-existence observability at registration -/

/-- C10. Registration with an already-registered email returns 409 with
code `USER_EXISTS` in every environment, and a fresh email returns 201
`REGISTRATION_SUCCESS`; status and code are identical across environments
(only the message text is gated), so existence of an account is always
observable from status and code. -/
theorem c10_env_observability (env env2 : Env) (hash : String → String) (db : DB)
    (email password : String) (newId now : Nat) :
    ((∃ u, db.users.find? (fun v => v.email == email) = some u) →
      (register env hash db email password newId now).2.status = 409 ∧
      (register env hash db email password newId now).2.code = Code.USER_EXISTS) ∧
    (db.users.find? (fun v => v.email == email) = none →
      (register env hash db email password newId now).2.status = 201 ∧
      (register env hash db email password newId now).2.code = Code.REGISTRATION_SUCCESS) ∧
    ((register env hash db email password newId now).2.status
        = (register env2 hash db email password newId now).2.status ∧
     (register env hash db email password newId now).2.code
        = (register env2 hash db email password newId now).2.code) := by
  unfold register
  cases h : db.users.find? (fun v => v.email == email) with
  | none =>
    simp only [h]
    refine ⟨fun ⟨u, hu⟩ => Option.noConfusion hu, fun _ => ?_, ?_, ?_⟩ <;>
      first
        | exact ⟨rfl, rfl⟩
        | rfl
        | trivial
  | some u =>
    simp only [h]
    refine ⟨fun _ => ?_, fun hn => Option.noConfusion hn, ?_, ?_⟩ <;>
      first
        | exact ⟨rfl, rfl⟩
        | rfl

/-- Empty store used by the C10 witness. -/
def dbEmpty : DB := { users := [], sessions := [] }

/-- Witness for C10: in production a duplicate registration is 409
`USER_EXISTS`; in development a fresh one is 201. -/
theorem c10_env_observability_witness :
    ((register Env.production (fun s => s) ⟨[userA], []⟩ userA.email "x" 7 0).2.status = 409 ∧
     (register Env.production (fun s => s) ⟨[userA], []⟩ userA.email "x" 7 0).2.code
        = Code.USER_EXISTS) ∧
    ((register Env.development (fun s => s) dbEmpty "new@b.c" "x" 7 0).2.status = 201 ∧
     (register Env.development (fun s => s) dbEmpty "new@b.c" "x" 7 0).2.code
        = Code.REGISTRATION_SUCCESS) :=
  ⟨(c10_env_observability Env.production Env.development (fun s => s) ⟨[userA], []⟩
      userA.email "x" 7 0).1 ⟨userA, by decide⟩,
   (c10_env_observability Env.development Env.production (fun s => s) dbEmpty
      "new@b.c" "x" 7 0).2.1 (by decide)⟩

end BffAuth

